import Mathlib

/-!
Verification development for the FETP outbreak-simulation app (`src/app.py`).

The Python program is a single-threaded Streamlit application.  Its core is a
deterministic synthetic-population generator (`generate_outbreak_data`),
seeded internally with `np.random.seed(42)`, plus a disclosure layer
(`get_hospital_cases`, `process_lab_sample`, `get_ai_response`) and
session-state action handlers (interview, site inspection, lab submission).

The embedding below mirrors the source code:
  * numpy's global random stream is modelled as an explicit state `Nat`
    threaded through every draw, with a deterministic generator `rngNext`;
    each call that consumes randomness in Python consumes exactly one
    `rngNext` step here, and draws that Python performs conditionally
    (inside `if`-guarded expressions) are performed conditionally here too;
  * floating-point probabilities are modelled as exact rationals;
  * pandas DataFrames become lists of records; a Python `dict` literal
    becomes an association list; Python `None` becomes `Option.none`;
  * `pd.DataFrame.apply` column passes become `mapThread` passes, one pass
    per assigned column, in the source's order.
-/

/-- Linear congruential step standing in for numpy's global PRNG state
transition.  The concrete constants are irrelevant to the theorems below;
what matters is that the stream is a deterministic function of the seed. -/
def rngNext (s : Nat) : Nat := (1103515245 * s + 12345) % 2147483648

/-- Model of `np.random.random()`: one PRNG step, yielding a rational in
`[0, 1)` together with the successor state. -/
def randFloat (s : Nat) : ℚ × Nat :=
  let s' := rngNext s
  (((s' % 10000 : Nat) : ℚ) / 10000, s')

/-- Model of `np.random.randint(lo, hi)` (upper bound exclusive). -/
def randintRange (lo hi : Nat) (s : Nat) : Nat × Nat :=
  let s' := rngNext s
  (lo + s' % (hi - lo), s')

/-- Model of `np.random.choice(xs)` with uniform probabilities: one PRNG
step selecting an element of the list. -/
def choiceL {α : Type} [Inhabited α] (xs : List α) (s : Nat) : α × Nat :=
  let s' := rngNext s
  (xs.getD (s' % xs.length) default, s')

/-- Cumulative selection for `np.random.choice(xs, p=ws)`: walk the
weighted list, subtracting weights from the uniform draw `u`. -/
def pickCum {α : Type} (d : α) : List (α × ℚ) → ℚ → α
  | [], _ => d
  | (a, w) :: rest, u => if u < w then a else pickCum d rest (u - w)

/-- Model of `np.random.choice(xs, p=ws)`: one uniform draw resolved
against the cumulative weights. -/
def weightedChoice {α : Type} (d : α) (xs : List (α × ℚ)) (s : Nat) : α × Nat :=
  let (u, s') := randFloat s
  (pickCum d xs u, s')

/-- Map a state-threading function down a list, returning the outputs and
the final state.  This is the shape of every row-wise pandas `apply` pass
that consumes randomness. -/
def mapThread {α β : Type} (f : α → Nat → β × Nat) : List α → Nat → List β × Nat
  | [], s => ([], s)
  | x :: xs, s =>
    let (y, s') := f x s
    let (ys, s'') := mapThread f xs s'
    (y :: ys, s'')

/-! ## Geography: the `villages` DataFrame -/

/-- The three village identifiers `'V1'`, `'V2'`, `'V3'` appearing in the
source's tables. -/
inductive VillageId : Type
  | V1 | V2 | V3
deriving DecidableEq, Repr

instance : BEq VillageId := ⟨fun a b => decide (a = b)⟩

instance : LawfulBEq VillageId where
  rfl := by intro a; simp [BEq.beq]
  eq_of_beq := by intro a b h; simpa [BEq.beq] using h

/-- One row of the `villages` DataFrame (`generate_outbreak_data`). -/
structure Village where
  village_id : VillageId
  village_name : String
  has_rice_paddies : Bool
  pig_density : String
  distance_to_wetland_km : ℚ
  JE_vacc_coverage : ℚ
  population_size : Nat
  baseline_risk : ℚ
  zone_description : String
deriving DecidableEq, Repr

/-- The `villages` DataFrame: three hard-coded rows. -/
def villages : List Village :=
  [ { village_id := .V1, village_name := "Nalu Village", has_rice_paddies := true,
      pig_density := "High", distance_to_wetland_km := 4/10, JE_vacc_coverage := 22/100,
      population_size := 480, baseline_risk := 18/100,
      zone_description := "Dense rice paddies, large pig cooperative near school, wetlands nearby" },
    { village_id := .V2, village_name := "Kabwe Village", has_rice_paddies := true,
      pig_density := "Moderate", distance_to_wetland_km := 12/10, JE_vacc_coverage := 40/100,
      population_size := 510, baseline_risk := 7/100,
      zone_description := "Scattered pig farms, intermittent irrigation canals" },
    { village_id := .V3, village_name := "Tamu Village", has_rice_paddies := false,
      pig_density := "Low", distance_to_wetland_km := 25/10, JE_vacc_coverage := 55/100,
      population_size := 390, baseline_risk := 2/100,
      zone_description := "Dryland farming, fewer pigs, seasonal pools only" } ]

/-- `village_risk = dict(zip(villages['village_id'], villages['baseline_risk']))`. -/
def village_risk (v : VillageId) : ℚ :=
  (((villages.find? (fun w => w.village_id == v)).map (fun w => w.baseline_risk)).getD 0)

/-- Lookup of `JE_vacc_coverage` by village id, as done with
`villages[villages['village_id'] == ...]['JE_vacc_coverage'].values[0]`. -/
def coverageOf (v : VillageId) : ℚ :=
  (((villages.find? (fun w => w.village_id == v)).map (fun w => w.JE_vacc_coverage)).getD 0)

/-! ## Households -/

/-- One row of the `households` DataFrame. -/
structure Household where
  hh_id : Nat
  village_id : VillageId
  village_name : String
  pigs_owned : Nat
  pig_pen_distance_m : Option Nat
  uses_mosquito_nets : Bool
  rice_field_distance_m : Nat
  n_children_under_15 : Nat
  child_vaccination_status : String
  gps_lat : ℚ
  gps_lon : ℚ
deriving DecidableEq, Repr

/-- Pig ownership draw for one household: a weighted count, then (only when
`pigs > 0`, as in the Python conditional expression) a pen-distance draw. -/
def pigDraw (density : String) (s : Nat) : (Nat × Option Nat) × Nat :=
  if density == "High" then
    let (pigs, s) := weightedChoice 0
      [(0, 15/100), (2, 20/100), (4, 25/100), (6, 20/100), (8, 15/100), (10, 5/100)] s
    if pigs > 0 then
      let (d, s) := choiceL [10, 15, 20, 30, 50] s
      ((pigs, some d), s)
    else ((pigs, none), s)
  else if density == "Moderate" then
    let (pigs, s) := weightedChoice 0
      [(0, 35/100), (1, 25/100), (2, 20/100), (3, 15/100), (5, 5/100)] s
    if pigs > 0 then
      let (d, s) := choiceL [20, 30, 40, 60] s
      ((pigs, some d), s)
    else ((pigs, none), s)
  else
    let (pigs, s) := weightedChoice 0 [(0, 70/100), (1, 20/100), (2, 10/100)] s
    if pigs > 0 then
      let (d, s) := choiceL [50, 80, 100] s
      ((pigs, some d), s)
    else ((pigs, none), s)

/-- Generate one household row for village `v` (body of the per-village
household loop in `generate_outbreak_data`). -/
def genHousehold (v : Village) (hhid : Nat) (s : Nat) : Household × Nat :=
  let (pd, s) := pigDraw v.pig_density s
  let (un, s) := randFloat s
  let net_use := decide (un < 3/10 + v.JE_vacc_coverage)
  let (rice, s) :=
    if v.has_rice_paddies then choiceL [30, 50, 80, 120, 200] s
    else choiceL [300, 500, 800] s
  let (uc, s) := randFloat s
  let nChildren := pickCum 0 [(0, 15/100), (1, 25/100), (2, 30/100), (3, 20/100), (4, 10/100)] uc
  let (uv, s) := randFloat s
  let childVacc := pickCum "none"
    [("none", 1 - v.JE_vacc_coverage), ("partial", v.JE_vacc_coverage * (6/10)),
     ("full", v.JE_vacc_coverage * (4/10))] uv
  let (g1, s) := randFloat s
  let (g2, s) := randFloat s
  ({ hh_id := hhid, village_id := v.village_id, village_name := v.village_name,
     pigs_owned := pd.1, pig_pen_distance_m := pd.2,
     uses_mosquito_nets := net_use, rice_field_distance_m := rice,
     n_children_under_15 := nChildren, child_vaccination_status := childVacc,
     gps_lat := 85/10 + (g1 * (1/10) - 5/100),
     gps_lon := -123/10 + (g2 * (1/10) - 5/100) }, s)

/-- `population_size // 4` households for one village, with consecutive ids. -/
def genVillageHouseholds (v : Village) (startId : Nat) (s : Nat) : List Household × Nat :=
  mapThread (fun i st => genHousehold v (startId + i) st) (List.range (v.population_size / 4)) s

/-- The full household-generation loop over all villages, threading the
PRNG state and the household-id counter. -/
def genHouseholds (s : Nat) : List Household × Nat :=
  let step := fun (acc : List Household × Nat × Nat) (v : Village) =>
    let (hs, s') := genVillageHouseholds v acc.2.1 acc.2.2
    (acc.1 ++ hs, acc.2.1 + hs.length, s')
  let r := villages.foldl step ([], 1, s)
  (r.1, r.2.2)

/-! ## Individuals (demographics and exposures) -/

/-- One row of the `individuals` DataFrame as first built (before the
disease columns are assigned). -/
structure IndBase where
  person_id : Nat
  hh_id : Nat
  village_id : VillageId
  village_name : String
  age : Nat
  sex : String
  occupation : String
  JE_vaccinated : Bool
  evening_outdoor_exposure : Bool
  pigs_near_home : Bool
  uses_nets : Bool
  rice_field_nearby : Bool
deriving DecidableEq, Repr

/-- Generate one adult member of household `hh` (`i` is the loop index:
the first adult's sex is drawn `'M' if np.random.random() < 0.6`, which
short-circuits the choice draw). -/
def genAdult (cov : ℚ) (hh : Household) (i : Nat) (pid : Nat) (s : Nat) : IndBase × Nat :=
  let (age, s) := randintRange 18 65 s
  let (sex, s) :=
    if i == 0 then
      let (u, s) := randFloat s
      if u < 6/10 then ("M", s) else choiceL ["M", "F"] s
    else choiceL ["M", "F"] s
  let (occ, s) := weightedChoice "other"
    [("farmer", 50/100), ("trader", 20/100), ("teacher", 10/100),
     ("healthcare", 5/100), ("other", 15/100)] s
  let (uv, s) := randFloat s
  let vacc := decide (uv < cov * (1/2))
  let (ue, s) := randFloat s
  let evening := decide (ue < (if occ == "farmer" then 8/10 else 4/10))
  ({ person_id := pid, hh_id := hh.hh_id, village_id := hh.village_id,
     village_name := hh.village_name, age := age, sex := sex, occupation := occ,
     JE_vaccinated := vacc, evening_outdoor_exposure := evening,
     pigs_near_home := decide (hh.pigs_owned > 0) && decide (hh.pig_pen_distance_m.getD 100 < 30),
     uses_nets := hh.uses_mosquito_nets,
     rice_field_nearby := decide (hh.rice_field_distance_m < 100) }, s)

/-- Generate one child member of household `hh`.  Vaccination draws happen
only in the `'partial'` branch, as in the source. -/
def genChild (hh : Household) (pid : Nat) (s : Nat) : IndBase × Nat :=
  let (age, s) := randintRange 1 15 s
  let (sex, s) := choiceL ["M", "F"] s
  let (vacc, s) :=
    if hh.child_vaccination_status == "full" then (true, s)
    else if hh.child_vaccination_status == "partial" then
      let (u, s) := randFloat s
      (decide (u < 1/2), s)
    else (false, s)
  let (ue, s) := randFloat s
  let evening := decide (ue < 7/10)
  ({ person_id := pid, hh_id := hh.hh_id, village_id := hh.village_id,
     village_name := hh.village_name, age := age, sex := sex,
     occupation := if age < 6 then "child" else "student",
     JE_vaccinated := vacc, evening_outdoor_exposure := evening,
     pigs_near_home := decide (hh.pigs_owned > 0) && decide (hh.pig_pen_distance_m.getD 100 < 30),
     uses_nets := hh.uses_mosquito_nets,
     rice_field_nearby := decide (hh.rice_field_distance_m < 100) }, s)

/-- All members of one household: a weighted adult count, the adults, then
the `n_children_under_15` children. -/
def genHouseholdMembers (hh : Household) (pid0 : Nat) (s : Nat) : List IndBase × Nat :=
  let (nAdults, s) := weightedChoice 1 [(1, 2/10), (2, 6/10), (3, 2/10)] s
  let cov := coverageOf hh.village_id
  let (adults, s) := mapThread (fun i st => genAdult cov hh i (pid0 + i) st) (List.range nAdults) s
  let (children, s) :=
    mapThread (fun i st => genChild hh (pid0 + nAdults + i) st) (List.range hh.n_children_under_15) s
  (adults ++ children, s)

/-- The individual-generation loop over all households, threading the PRNG
state and the person-id counter. -/
def genIndividuals (hhs : List Household) (s : Nat) : List IndBase × Nat :=
  let step := fun (acc : List IndBase × Nat × Nat) (hh : Household) =>
    let (ms, s') := genHouseholdMembers hh acc.2.1 acc.2.2
    (acc.1 ++ ms, acc.2.1 + ms.length, s')
  let r := hhs.foldl step ([], 1, s)
  (r.1, r.2.2)

/-! ## Risk and disease assignment -/

/-- `calculate_risk` from `generate_outbreak_data`: village baseline, four
additive exposure bonuses, multiplicative factor `0.15` when vaccinated
(the source comments this as 85% vaccine efficacy), capped at `0.4`. -/
def calculate_risk (row : IndBase) : ℚ :=
  let base := village_risk row.village_id
  let base := if row.pigs_near_home then base + 8/100 else base
  let base := if !row.uses_nets then base + 5/100 else base
  let base := if row.rice_field_nearby then base + 4/100 else base
  let base := if row.evening_outdoor_exposure then base + 3/100 else base
  let base := if row.JE_vaccinated then base * (15/100) else base
  min base (4/10)

/-- The infection-risk formula exactly as the specification words it:
baseline plus the sum of the attribute bonuses, multiplied by
`(1 - vaccine_efficacy)` with efficacy `0.85` when vaccinated, clamped to
at most `0.4`.  To be compared against `calculate_risk`. -/
def risk_spec (row : IndBase) : ℚ :=
  min ((village_risk row.village_id
        + (if row.pigs_near_home then 8/100 else 0)
        + (if !row.uses_nets then 5/100 else 0)
        + (if row.rice_field_nearby then 4/100 else 0)
        + (if row.evening_outdoor_exposure then 3/100 else 0))
       * (if row.JE_vaccinated then 1 - 85/100 else 1))
      (4/10)

/-- One full row of the `individuals` DataFrame after all disease columns
have been assigned.  `onset_date` is stored as days after the epidemic
base date 2024-06-01 (`None` becomes `Option.none`). -/
structure Individual where
  base : IndBase
  infection_risk : ℚ
  true_JE_infected : Bool
  symptomatic_AES : Bool
  severe_neuro : Bool
  onset_date : Option Nat
  outcome : Option String
  symptoms : Option String
deriving DecidableEq, Repr

/-- A freshly generated individual row before any disease column exists
(pandas rows acquire the columns one `apply` pass at a time). -/
def initIndividual (b : IndBase) : Individual :=
  { base := b, infection_risk := 0, true_JE_infected := false,
    symptomatic_AES := false, severe_neuro := false,
    onset_date := none, outcome := none, symptoms := none }

/-- Column pass `individuals_df['infection_risk'] = ....apply(calculate_risk)`. -/
def riskRow (b : IndBase) : Individual :=
  { initIndividual b with infection_risk := calculate_risk b }

/-- Column pass `true_JE_infected = infection_risk.apply(lambda x: np.random.random() < x)`. -/
def stepInfected (i : Individual) (s : Nat) : Individual × Nat :=
  let (u, s') := randFloat s
  ({ i with true_JE_infected := decide (u < i.infection_risk) }, s')

/-- Column pass for `assign_symptomatic`: non-infected rows return `False`
without drawing; infected rows draw with `p = 0.15` for children under 15
and `0.05` otherwise. -/
def stepSymptomatic (i : Individual) (s : Nat) : Individual × Nat :=
  if i.true_JE_infected then
    let (u, s') := randFloat s
    ({ i with symptomatic_AES := decide (u < (if i.base.age < 15 then 15/100 else 5/100)) }, s')
  else ({ i with symptomatic_AES := false }, s)

/-- Column pass `severe_neuro = symptomatic_AES.apply(lambda x: random < 0.25 if x else False)`. -/
def stepSevere (i : Individual) (s : Nat) : Individual × Nat :=
  if i.symptomatic_AES then
    let (u, s') := randFloat s
    ({ i with severe_neuro := decide (u < 25/100) }, s')
  else ({ i with severe_neuro := false }, s)

/-- Column pass for `assign_onset`: non-symptomatic rows get `None` without
drawing; symptomatic rows draw a village-dependent day offset. -/
def stepOnset (i : Individual) (s : Nat) : Individual × Nat :=
  if i.symptomatic_AES then
    let (off, s') :=
      match i.base.village_id with
      | .V1 => randintRange 2 8 s
      | .V2 => randintRange 5 12 s
      | .V3 => randintRange 4 14 s
    ({ i with onset_date := some off }, s')
  else ({ i with onset_date := none }, s)

/-- Column pass for `assign_outcome`: `None` for non-symptomatic rows;
severity-dependent categorical draw otherwise. -/
def stepOutcome (i : Individual) (s : Nat) : Individual × Nat :=
  if i.symptomatic_AES then
    if i.severe_neuro then
      let (r, s') := randFloat s
      let o := if r < 20/100 then "died"
        else if r < 65/100 then "recovered_sequelae"
        else "recovered_full"
      ({ i with outcome := some o }, s')
    else
      let (r, s') := randFloat s
      ({ i with outcome := some (if r < 95/100 then "recovered_full" else "recovered_sequelae") }, s')
  else ({ i with outcome := none }, s)

/-- Column pass for `assign_symptoms`: `None` for non-symptomatic rows;
otherwise a comma-joined symptom list with conditional extras. -/
def stepSymptoms (i : Individual) (s : Nat) : Individual × Nat :=
  if i.symptomatic_AES then
    if i.severe_neuro then
      let (u1, s) := randFloat s
      let (u2, s) := randFloat s
      let (u3, s) := randFloat s
      let syms := ["fever", "headache", "seizures", "altered_consciousness"]
        ++ (if u1 < 1/2 then ["neck_stiffness"] else [])
        ++ (if u2 < 3/10 then ["tremors"] else [])
        ++ (if u3 < 4/10 then ["paralysis"] else [])
      ({ i with symptoms := some (String.intercalate ", " syms) }, s)
    else
      let (u1, s) := randFloat s
      let (u2, s) := randFloat s
      let syms := ["fever", "headache"]
        ++ (if u1 < 6/10 then ["vomiting"] else [])
        ++ (if u2 < 3/10 then ["mild_confusion"] else [])
      ({ i with symptoms := some (String.intercalate ", " syms) }, s)
  else ({ i with symptoms := none }, s)

/-- The seven disease-column passes over the individual table, in source
order, threading the PRNG state between passes.  (No draw happens after
the last pass, so only the finished table is returned.) -/
def assignDiseaseAll (bases : List IndBase) (s : Nat) : List Individual :=
  let rows := bases.map riskRow
  let p2 := mapThread stepInfected rows s
  let p3 := mapThread stepSymptomatic p2.1 p2.2
  let p4 := mapThread stepSevere p3.1 p3.2
  let p5 := mapThread stepOnset p4.1 p4.2
  let p6 := mapThread stepOutcome p5.1 p5.2
  let p7 := mapThread stepSymptoms p6.1 p6.2
  p7.1

/-! ## Environmental sites and lab truth tables -/

/-- One row of the `env_sites` DataFrame. -/
structure EnvSite where
  site_id : String
  site_type : String
  village_id : String
  breeding_index : String
  culex_present : Bool
  JEV_positive_mosquitoes : Bool
  description : String
deriving DecidableEq, Repr

/-- The static `env_sites` DataFrame (six rows). -/
def envSites : List EnvSite :=
  [ { site_id := "ES01", site_type := "rice_paddy", village_id := "V1", breeding_index := "high",
      culex_present := true, JEV_positive_mosquitoes := true,
      description := "Flooded rice paddies 200m from school, expanded 2 months ago" },
    { site_id := "ES02", site_type := "pig_cooperative", village_id := "V1", breeding_index := "high",
      culex_present := true, JEV_positive_mosquitoes := true,
      description := "New pig cooperative with 80+ pigs, built near residential area" },
    { site_id := "ES03", site_type := "irrigation_canal", village_id := "V2", breeding_index := "medium",
      culex_present := true, JEV_positive_mosquitoes := true,
      description := "Irrigation canal system, stagnant water sections" },
    { site_id := "ES04", site_type := "seasonal_pool", village_id := "V3", breeding_index := "low",
      culex_present := true, JEV_positive_mosquitoes := false,
      description := "Seasonal rain pools, dry most of year" },
    { site_id := "ES05", site_type := "pig_farm", village_id := "V2", breeding_index := "medium",
      culex_present := true, JEV_positive_mosquitoes := true,
      description := "Small pig farm, 15 pigs, proper drainage" },
    { site_id := "ES06", site_type := "wetland", village_id := "V1", breeding_index := "high",
      culex_present := true, JEV_positive_mosquitoes := true,
      description := "Natural wetland area, traditional fishing spot" } ]

/-- One row of the `lab_truth` DataFrame. -/
structure LabSampleTruth where
  sample_id : String
  sample_type : String
  source_village : String
  true_JEV_positive : Bool
  notes : String
deriving DecidableEq, Repr

/-- The static `lab_truth` DataFrame (eleven rows). -/
def labTruth : List LabSampleTruth :=
  [ { sample_id := "L001", sample_type := "human_CSF", source_village := "V1",
      true_JEV_positive := true, notes := "Child case, severe" },
    { sample_id := "L002", sample_type := "human_serum", source_village := "V1",
      true_JEV_positive := true, notes := "Child case, mild" },
    { sample_id := "L003", sample_type := "human_CSF", source_village := "V1",
      true_JEV_positive := true, notes := "Adult case, severe" },
    { sample_id := "L004", sample_type := "human_serum", source_village := "V2",
      true_JEV_positive := true, notes := "Child case, severe" },
    { sample_id := "L005", sample_type := "human_CSF", source_village := "V2",
      true_JEV_positive := true, notes := "Child case, mild" },
    { sample_id := "L006", sample_type := "human_serum", source_village := "V3",
      true_JEV_positive := false, notes := "Febrile illness, not JE" },
    { sample_id := "L101", sample_type := "pig_serum", source_village := "V1",
      true_JEV_positive := true, notes := "Pig cooperative sample" },
    { sample_id := "L102", sample_type := "pig_serum", source_village := "V2",
      true_JEV_positive := true, notes := "Scattered farm sample" },
    { sample_id := "L201", sample_type := "mosquito_pool", source_village := "V1",
      true_JEV_positive := true, notes := "Rice paddy collection" },
    { sample_id := "L202", sample_type := "mosquito_pool", source_village := "V2",
      true_JEV_positive := true, notes := "Canal collection" },
    { sample_id := "L203", sample_type := "mosquito_pool", source_village := "V3",
      true_JEV_positive := false, notes := "Seasonal pool" } ]

/-! ## The world generator -/

/-- The dictionary returned by `generate_outbreak_data`. -/
structure Tables where
  villages : List Village
  households : List Household
  individuals : List Individual
  env_sites : List EnvSite
  lab_truth : List LabSampleTruth
deriving DecidableEq, Repr

/-- The household table produced from the re-seeded stream (seed 42). -/
def truthHouseholds : List Household := (genHouseholds 42).1

/-- The demographic individual rows, continuing the stream after the
household loop. -/
def truthBases : List IndBase × Nat :=
  genIndividuals truthHouseholds (genHouseholds 42).2

/-- The finished individual table, continuing the stream after the
demographic loop through the seven disease passes. -/
def truthIndividuals : List Individual := assignDiseaseAll truthBases.1 truthBases.2

/-- `generate_outbreak_data`: the function receives whatever numpy global
random state `g` exists when it is called, but its first statement
`np.random.seed(42)` discards it, so the whole pipeline runs from the hard
seed 42 (`truthHouseholds`, `truthBases`, `truthIndividuals` above thread
the re-seeded stream through the three generation stages in order). -/
def generateOutbreakData (g : Nat) : Tables :=
  let _ := g
  { villages := villages,
    households := truthHouseholds,
    individuals := truthIndividuals,
    env_sites := envSites, lab_truth := labTruth }

/-! ## Disclosure layer: hospital line list -/

/-- Zero-padded two-digit formatting, as in the `:02d` format specifiers. -/
def pad2 (n : Nat) : String :=
  if n < 10 then "0" ++ toString n else toString n

/-- Zero-padded three-digit formatting, as in the `:03d` format specifier
of the lab sample ids. -/
def pad3 (n : Nat) : String :=
  if n < 10 then "00" ++ toString n
  else if n < 100 then "0" ++ toString n
  else toString n

/-- `onset_date.strftime('%b %d')` for an onset stored as days after
2024-06-01 (all generated onsets fall in June). -/
def formatOnset (off : Nat) : String := "Jun " ++ pad2 (1 + off)

/-- `outcome.replace('_', ' ').title()` on the three outcome strings. -/
def titleOutcome (o : String) : String :=
  if o == "died" then "Died"
  else if o == "recovered_sequelae" then "Recovered Sequelae"
  else if o == "recovered_full" then "Recovered Full"
  else o

/-- One row of the DataFrame returned by `get_hospital_cases`. -/
structure HospitalRow where
  case_id : String
  age : Nat
  sex : String
  village : String
  onset_str : String
  symptoms : Option String
  outcome_str : String
  occupation : String
deriving DecidableEq, Repr

/-- The filter `individuals[(severe_neuro == True) & (onset_date.notna())]`
inside `get_hospital_cases`. -/
def severeCases (inds : List Individual) : List Individual :=
  inds.filter (fun i => i.severe_neuro && i.onset_date.isSome)

/-- The row-building loop of `get_hospital_cases`: case ids are
`DH-01, DH-02, ...` by position in the list being built. -/
def buildHospitalRows : Nat → List Individual → List HospitalRow
  | _, [] => []
  | n, i :: rest =>
    { case_id := "DH-" ++ pad2 (n + 1),
      age := i.base.age, sex := i.base.sex, village := i.base.village_name,
      onset_str := match i.onset_date with
        | some off => formatOnset off
        | none => "Unknown",
      symptoms := i.symptoms,
      outcome_str := match i.outcome with
        | some o => titleOutcome o
        | none => "Unknown",
      occupation := i.base.occupation } :: buildHospitalRows (n + 1) rest

/-- `get_hospital_cases` as a function of the truth individual table: the
severe filter, `head(8)`, then row building.  (In the program the argument
is `TRUTH['individuals']`, i.e. the individuals of `generateOutbreakData`.) -/
def getHospitalCases (inds : List Individual) : List HospitalRow :=
  buildHospitalRows 0 ((severeCases inds).take 8)

/-! ## Laboratory system (`process_lab_sample`) -/

/-- The values appearing in the result dictionary of `process_lab_sample`. -/
inductive LabValue : Type
  | str (v : String)
  | nat (v : Nat)
  | bool (v : Bool)
deriving DecidableEq, Repr

/-- One entry of the `test_chars` table: sensitivity, specificity, test name. -/
structure TestChars where
  sensitivity : ℚ
  specificity : ℚ
  test : String
deriving DecidableEq, Repr

/-- `test_chars.get(sample_type, default)` from `process_lab_sample`,
including the default entry for unknown sample types. -/
def testChars (sample_type : String) : TestChars :=
  if sample_type == "human_CSF" then
    { sensitivity := 85/100, specificity := 98/100, test := "JE IgM ELISA" }
  else if sample_type == "human_serum" then
    { sensitivity := 80/100, specificity := 95/100, test := "JE IgM ELISA" }
  else if sample_type == "pig_serum" then
    { sensitivity := 90/100, specificity := 95/100, test := "JE IgG/IgM" }
  else if sample_type == "mosquito_pool" then
    { sensitivity := 95/100, specificity := 98/100, test := "JE RT-PCR" }
  else
    { sensitivity := 80/100, specificity := 95/100, test := "Standard" }

/-- The true-status lookup in `process_lab_sample`: filter the lab truth
table on sample type and village; an empty match is treated as truly
negative, otherwise the first matching row's flag is used. -/
def labTrueStatus (sample_type village_id : String) : Bool :=
  match labTruth.filter (fun r => r.sample_type == sample_type && r.source_village == village_id) with
  | [] => false
  | m :: _ => m.true_JEV_positive

/-- `process_lab_sample(sample_type, source, village_id)`.  `nResults` is
`len(st.session_state.lab_results)` at call time; `u` is the uniform draw
deciding the observed result; `t` feeds `np.random.randint(2, 5)`.  The
returned association list mirrors the Python dict literal key for key. -/
def processLabSample (sample_type source village_id : String) (nResults : Nat)
    (u : ℚ) (t : Nat) : List (String × LabValue) :=
  let true_status := labTrueStatus sample_type village_id
  let chars := testChars sample_type
  let result_positive :=
    if true_status then decide (u < chars.sensitivity)
    else decide (u > chars.specificity)
  [ ("sample_id", .str ("LAB-" ++ pad3 (nResults + 1))),
    ("sample_type", .str sample_type),
    ("source", .str source),
    ("village", .str village_id),
    ("test_performed", .str chars.test),
    ("result", .str (if result_positive then "POSITIVE" else "NEGATIVE")),
    ("turnaround_days", .nat (2 + t % 3)),
    ("true_status", .bool true_status) ]

/-! ## Session state and resource-gated actions -/

/-- The nine keys of the `CHARACTERS` dictionary. -/
inductive CharKey : Type
  | dr_okonkwo | nurse_fatima | health_worker_joseph | mama_adama
  | chief_boateng | mr_owusu | teacher_grace | dr_mensah | entomologist_kwame
deriving DecidableEq, Repr

/-- `CHARACTERS[k]['cost']`. -/
def interviewCost : CharKey → Nat
  | .dr_okonkwo => 0
  | .nurse_fatima => 100
  | .health_worker_joseph => 100
  | .mama_adama => 50
  | .chief_boateng => 150
  | .mr_owusu => 200
  | .teacher_grace => 50
  | .dr_mensah => 150
  | .entomologist_kwame => 150

/-- `CHARACTERS[k]['unlocks']`: the session-state key set to `True` after a
successful interview response, when present. -/
def charUnlocks : CharKey → Option String
  | .nurse_fatima => some "health_center_nalu_unlocked"
  | .health_worker_joseph => some "health_center_kabwe_unlocked"
  | .chief_boateng => some "community_trust_nalu"
  | _ => none

/-- The slice of `st.session_state` touched by the three resource-gated
actions (interview start, site inspection, lab submission). -/
structure SessionSt where
  budget : ℤ
  lab_credits : ℤ
  lab_results : List (List (String × LabValue))
  sites_inspected : List String
  interview_history : List (CharKey × Nat)
  current_character : Option CharKey
deriving DecidableEq, Repr

/-- The `Talk to ...` button handler in the interviews view: on sufficient
budget it deducts the character's cost, makes the character current, and
creates an empty history entry only if none exists; otherwise it changes
nothing and shows `Insufficient funds!`.  (History entries are modelled as
`(character, message count)` pairs.) -/
def startInterview (s : SessionSt) (k : CharKey) : SessionSt × Option String :=
  if s.budget ≥ (interviewCost k : ℤ) then
    ({ s with budget := s.budget - (interviewCost k : ℤ),
              current_character := some k,
              interview_history :=
                if (s.interview_history.find? (fun e => e.1 == k)).isSome
                then s.interview_history
                else s.interview_history ++ [(k, 0)] }, none)
  else (s, some "Insufficient funds!")

/-- The `Inspect ($100)` button handler in the map view. -/
def inspectSite (s : SessionSt) (siteId : String) : SessionSt × Option String :=
  if s.budget ≥ 100 then
    ({ s with budget := s.budget - 100,
              sites_inspected := s.sites_inspected ++ [siteId] }, none)
  else (s, some "Insufficient funds!")

/-- The `Submit to Lab (1 credit)` form handler in the laboratory view. -/
def submitLabSample (s : SessionSt) (sample_type source village_id : String)
    (u : ℚ) (t : Nat) : SessionSt × Option String :=
  if s.lab_credits ≥ 1 then
    ({ s with lab_credits := s.lab_credits - 1,
              lab_results := s.lab_results ++
                [processLabSample sample_type source village_id s.lab_results.length u t] },
     none)
  else (s, some "No lab credits remaining!")

/-! ## Dynamic session-state dictionary (for the interview unlocks and the
debrief view, which read `st.session_state` by attribute name) -/

/-- Python values stored in `st.session_state` (sets and dicts are folded
into lists, which is all the claims below need). -/
inductive StValue : Type
  | int (v : ℤ)
  | str (v : String)
  | bool (v : Bool)
  | list (v : List StValue)
  | dict (v : List (String × StValue))
  | pynone

/-- Python dict/attribute assignment `st.session_state[k] = v`: replace the
existing entry or append a new one. -/
def setKey (st : List (String × StValue)) (k : String) (v : StValue) :
    List (String × StValue) :=
  match st with
  | [] => [(k, v)]
  | (k', v') :: rest => if k' = k then (k, v) :: rest else (k', v') :: setKey rest k v

/-- Python dict key lookup. -/
def lookupKey {α : Type} : List (String × α) → String → Option α
  | [], _ => none
  | (k', v) :: rest, k => if k' = k then some v else lookupKey rest k

/-- Attribute read `st.session_state.k`: missing keys raise
`AttributeError` (modelled in `Except`). -/
def getAttr (st : List (String × StValue)) (k : String) : Except String StValue :=
  match lookupKey st k with
  | some v => Except.ok v
  | none => Except.error ("AttributeError: st.session_state has no attribute " ++ k)

/-- The defaults written by `init_session_state` (exactly the keys of the
`defaults` dictionary, in source order). -/
def initSessionState : List (String × StValue) :=
  [ ("current_view", .str "briefing"),
    ("investigation_day", .int 1),
    ("game_phase", .str "initial"),
    ("budget", .int 3000),
    ("lab_credits", .int 15),
    ("field_days", .int 14),
    ("hospital_data_accessed", .bool true),
    ("health_center_nalu_unlocked", .bool false),
    ("health_center_kabwe_unlocked", .bool false),
    ("community_trust_nalu", .int 0),
    ("community_trust_kabwe", .int 0),
    ("community_trust_tamu", .int 0),
    ("interview_history", .dict []),
    ("current_character", .pynone),
    ("clues_discovered", .list []),
    ("case_definition_written", .bool false),
    ("case_definition_text", .str ""),
    ("hypothesis_written", .bool false),
    ("hypothesis_text", .str ""),
    ("epi_curve_built", .bool false),
    ("spot_map_created", .bool false),
    ("samples_collected", .list []),
    ("lab_results", .list []),
    ("pending_labs", .list []),
    ("sites_inspected", .list []),
    ("environmental_samples", .list []),
    ("household_surveys_done", .int 0),
    ("confirmed_cases", .list []),
    ("suspected_cases", .list []),
    ("manually_entered_cases", .list []),
    ("study_type", .pynone),
    ("questionnaire_deployed", .bool false),
    ("field_data_collected", .pynone),
    ("actions_log", .list []),
    ("critical_findings", .list []) ]

/-! ## Interview unlocks (`get_ai_response`) -/

/-- The unlock assignment `st.session_state[char['unlocks']] = True`
performed after a successful completion, guarded only by the character
having an `unlocks` entry. -/
def applyUnlocks (k : CharKey) (st : List (String × StValue)) : List (String × StValue) :=
  match charUnlocks k with
  | some key => setKey st key (.bool true)
  | none => st

/-- `get_ai_response(char_key, user_input, history)`.  The opaque language
model call is abstracted by `apiResult`: `none` models a raised exception
(caught and turned into an error string), `some text` a successful
completion.  `user_input` is forwarded to the model only; the unlock logic
never inspects it.  Returns the displayed text and the updated session
state. -/
def getAiResponse (k : CharKey) (userInput : String) (apiKey : String)
    (apiResult : Option String) (st : List (String × StValue)) :
    String × List (String × StValue) :=
  let _ := userInput
  if apiKey == "" then
    ("API Key not configured. Please add ANTHROPIC_API_KEY to your Streamlit secrets.", st)
  else
    match apiResult with
    | none => ("[Interview connection error]", st)
    | some text => (text, applyUnlocks k st)

/-! ## The debrief view -/

/-- The attribute reads performed by the debrief view, in source order,
ending at the point where the Python code would evaluate the undefined
name `findings` (the view builds a dictionary named `critical_clues` and
then reads `findings`, which is never bound).  Every read of a
`st.session_state` attribute goes through `getAttr` and raises on a
missing key, exactly as Streamlit's `SessionState.__getattr__` does. -/
def renderDebrief (st : List (String × StValue)) : Except String Unit := do
  let _ ← getAttr st "budget"
  let _ ← getAttr st "interview_history"
  let _ ← getAttr st "lab_results"
  let _ ← getAttr st "sites_inspected"
  let _ ← getAttr st "health_center_nalu_unlocked"
  let _ ← getAttr st "health_center_kabwe_unlocked"
  let _ ← getAttr st "health_center_nalu_unlocked"
  let _ ← getAttr st "interview_history"
  let _ ← getAttr st "interview_history"
  let _ ← getAttr st "health_center_nalu_unlocked"
  let _ ← getAttr st "lab_results"
  let _ ← getAttr st "sites_inspected"
  let _ ← getAttr st "epi_curve_built"
  let _ ← getAttr st "spot_map_viewed"
  let _ ← getAttr st "study_deployed"
  Except.error "NameError: name findings is not defined"

/-! ## Predicates and concrete tables used by the theorems -/

/-- Boolean form of the individual-table invariant: onset date and outcome
present exactly when symptomatic, and severe only when symptomatic. -/
def invariantB (i : Individual) : Bool :=
  (i.onset_date.isSome == i.symptomatic_AES) &&
  (i.outcome.isSome == i.symptomatic_AES) &&
  (!i.severe_neuro || i.symptomatic_AES)

/-- A severe symptomatic Nalu child with onset day offset 7 (June 8).
The exposure flags and the onset offset lie in the ranges the generator
draws from for village `V1`, and `infection_risk` equals
`calculate_risk` of the row. -/
def exSevereA : Individual :=
  { base := { person_id := 1, hh_id := 1, village_id := .V1, village_name := "Nalu Village",
              age := 6, sex := "F", occupation := "child", JE_vaccinated := false,
              evening_outdoor_exposure := true, pigs_near_home := true,
              uses_nets := false, rice_field_nearby := true },
    infection_risk := 38/100, true_JE_infected := true, symptomatic_AES := true,
    severe_neuro := true, onset_date := some 7, outcome := some "died",
    symptoms := some "fever, headache, seizures, altered_consciousness" }

/-- A second severe symptomatic Nalu child with the EARLIER onset day
offset 3 (June 4), listed after `exSevereA` in table order. -/
def exSevereB : Individual :=
  { base := { person_id := 2, hh_id := 2, village_id := .V1, village_name := "Nalu Village",
              age := 9, sex := "M", occupation := "student", JE_vaccinated := false,
              evening_outdoor_exposure := true, pigs_near_home := true,
              uses_nets := false, rice_field_nearby := true },
    infection_risk := 38/100, true_JE_infected := true, symptomatic_AES := true,
    severe_neuro := true, onset_date := some 3, outcome := some "recovered_sequelae",
    symptoms := some "fever, headache, seizures, altered_consciousness" }

/-- A truth individual table (satisfying the generator invariant) in which
the later-listed severe case has the earlier onset date. -/
def exNotSorted : List Individual := [exSevereA, exSevereB]

/-! ## Helper lemmas -/

theorem mapThread_mem {α β : Type} (f : α → Nat → β × Nat) :
    ∀ (xs : List α) (s : Nat) (y : β), y ∈ (mapThread f xs s).1 →
      ∃ x ∈ xs, ∃ s', y = (f x s').1 := by
  intro xs
  induction xs with
  | nil => intro s y h; simp [mapThread] at h
  | cons x xs ih =>
    intro s y h
    simp only [mapThread, List.mem_cons] at h
    rcases h with h | h
    · exact ⟨x, List.mem_cons_self x xs, s, h⟩
    · obtain ⟨x', hx', s', hy⟩ := ih _ y h
      exact ⟨x', List.mem_cons_of_mem _ hx', s', hy⟩

theorem buildHospitalRows_length : ∀ (n : Nat) (l : List Individual),
    (buildHospitalRows n l).length = l.length := by
  intro n l
  induction l generalizing n with
  | nil => simp [buildHospitalRows]
  | cons i rest ih => simp [buildHospitalRows, ih]

theorem setKey_idem (k : String) (v : StValue) :
    ∀ st : List (String × StValue), setKey (setKey st k v) k v = setKey st k v := by
  intro st
  induction st with
  | nil => simp [setKey]
  | cons e rest ih =>
    by_cases h : e.1 = k
    · simp [setKey, h]
    · simp [setKey, h, ih]

/-! ## Claim theorems -/

/-- C3.  World generation is deterministic: whatever numpy global random
state exists when `generate_outbreak_data` runs, the internal
`np.random.seed(42)` discards it, so two runs produce identical Village,
Household, and Individual tables (hence the same row counts and the same
infection flags). -/
theorem generateOutbreakData_deterministic (g1 g2 : Nat) :
    generateOutbreakData g1 = generateOutbreakData g2 := rfl

/-- C9.  `get_hospital_cases` truncates the severe line list with
`head(8)`: for every truth individual table the returned DataFrame has at
most 8 rows, however many severe symptomatic individuals exist. -/
theorem getHospitalCases_length_le_eight (inds : List Individual) :
    (getHospitalCases inds).length ≤ 8 := by
  simp only [getHospitalCases, buildHospitalRows_length, List.length_take]
  exact min_le_left _ _

set_option linter.unnecessarySeqFocus false in
theorem diseaseChain_invariant (i : Individual) (s4 s5 s6 s7 : Nat) :
    invariantB (stepSymptoms (stepOutcome (stepOnset (stepSevere i s4).1 s5).1 s6).1 s7).1 = true := by
  by_cases h : i.symptomatic_AES <;>
    simp [stepSevere, stepOnset, stepOutcome, stepSymptoms, invariantB, h] <;>
    split_ifs <;> simp

theorem assignDiseaseAll_invariant (bases : List IndBase) (s : Nat) :
    ((assignDiseaseAll bases s).all invariantB) = true := by
  rw [List.all_eq_true]
  intro i hi
  simp only [assignDiseaseAll] at hi
  obtain ⟨i6, hi6, s7, rfl⟩ := mapThread_mem _ _ _ _ hi
  obtain ⟨i5, hi5, s6, rfl⟩ := mapThread_mem _ _ _ _ hi6
  obtain ⟨i4, hi4, s5, rfl⟩ := mapThread_mem _ _ _ _ hi5
  obtain ⟨i3, hi3, s4, rfl⟩ := mapThread_mem _ _ _ _ hi4
  exact diseaseChain_invariant i3 s4 s5 s6 s7

/-- C2.  Every individual produced by `generate_outbreak_data` satisfies:
`onset_date` and `outcome` are present if and only if `symptomatic_AES` is
true, and `severe_neuro` is true only if `symptomatic_AES` is true. -/
theorem generateOutbreakData_individual_invariant (g : Nat) :
    ((generateOutbreakData g).individuals.all invariantB) = true := by
  have h1 : (generateOutbreakData g).individuals = truthIndividuals := by
    simp only [generateOutbreakData]
  rw [h1]
  exact assignDiseaseAll_invariant truthBases.1 truthBases.2

/-- C1.  `calculate_risk` computes exactly the specified formula: village
baseline plus the attribute bonuses (pigs near home +0.08, no net use
+0.05, rice field nearby +0.04, evening outdoor exposure +0.03),
multiplied by `1 - 0.85` when JE-vaccinated, clamped to at most 0.4
(`risk_spec` transcribes the specification's wording); and the
`true_JE_infected` column pass is a Bernoulli draw at exactly that
probability: the flag is set if and only if the uniform draw falls below
`calculate_risk` of the row. -/
theorem calculate_risk_correct (b : IndBase) (s : Nat) :
    calculate_risk b = risk_spec b ∧
    (stepInfected (riskRow b) s).1.true_JE_infected
      = decide ((randFloat s).1 < calculate_risk b) := by
  constructor
  · rcases b with ⟨pid, hh, vid, vname, age, sex, occ, vacc, evening, pigs, nets, rice⟩
    simp only [calculate_risk, risk_spec]
    cases vacc <;> cases evening <;> cases pigs <;> cases nets <;> cases rice <;>
      norm_num
  · simp [stepInfected, riskRow, initIndividual]

/-- C5 (amended).  On any truth table satisfying the generator invariant
(severe only if symptomatic), `get_hospital_cases` returns only rows built
from individuals that are both severe-neurological and symptomatic (with
an onset date); the selected individuals are the first at most 8 severe
rows in truth-table order (an order-preserving sublist) — the function
does NOT sort by onset date. -/
theorem getHospitalCases_severe_only (inds : List Individual)
    (hinv : ∀ i ∈ inds, i.severe_neuro = true → i.symptomatic_AES = true) :
    (∀ i ∈ (severeCases inds).take 8,
        i.severe_neuro = true ∧ i.symptomatic_AES = true ∧ i.onset_date.isSome = true) ∧
    ((severeCases inds).take 8).Sublist inds ∧
    getHospitalCases inds = buildHospitalRows 0 ((severeCases inds).take 8) := by
  refine ⟨?_, ?_, rfl⟩
  · intro i hi
    have hi' : i ∈ severeCases inds := List.mem_of_mem_take hi
    have hmem : i ∈ inds := List.mem_of_mem_filter hi'
    have hcond := List.of_mem_filter hi'
    simp only [Bool.and_eq_true] at hcond
    exact ⟨hcond.1, hinv i hmem hcond.1, hcond.2⟩
  · exact (List.take_sublist _ _).trans (List.filter_sublist _)

theorem getHospitalCases_severe_only_witness :
    (∀ i ∈ (severeCases exNotSorted).take 8,
        i.severe_neuro = true ∧ i.symptomatic_AES = true ∧ i.onset_date.isSome = true) ∧
    ((severeCases exNotSorted).take 8).Sublist exNotSorted ∧
    getHospitalCases exNotSorted = buildHospitalRows 0 ((severeCases exNotSorted).take 8) :=
  getHospitalCases_severe_only exNotSorted (by decide)

/-- C5 counterexample.  `get_hospital_cases` does not sort by onset date:
on the invariant-satisfying table `exNotSorted` the returned rows carry
onset dates June 8 then June 4, and the selected individuals' onset
offsets `[7, 3]` are not sorted. -/
theorem getHospitalCases_not_sorted_counterexample :
    ((getHospitalCases exNotSorted).map (fun r => r.onset_str)) = ["Jun 08", "Jun 04"] ∧
    (((severeCases exNotSorted).take 8).map (fun i => i.onset_date.getD 0)) = [7, 3] ∧
    ¬ List.Sorted (· ≤ ·)
        (((severeCases exNotSorted).take 8).map (fun i => i.onset_date.getD 0)) := by
  refine ⟨rfl, rfl, ?_⟩
  rw [show (((severeCases exNotSorted).take 8).map (fun i => i.onset_date.getD 0)) = [7, 3] from rfl]
  decide

/-- C4 counterexample.  For a concrete lab order the record returned by
`process_lab_sample` has exactly the keys of the source's dict literal —
`sample_id, sample_type, source, village, test_performed, result,
turnaround_days, true_status` — and contains no monetary cost entry. -/
theorem processLabSample_no_cost_counterexample :
    lookupKey (processLabSample "human_CSF" "case DH-01" "V1" 0 0 0) "cost" = none ∧
    (processLabSample "human_CSF" "case DH-01" "V1" 0 0 0).map (fun e => e.1)
      = ["sample_id", "sample_type", "source", "village", "test_performed",
         "result", "turnaround_days", "true_status"] := by
  exact ⟨rfl, rfl⟩

/-- C4 (amended).  `process_lab_sample` treats an order whose sample type
and village match no truth row as truly negative; the observed result is
`POSITIVE` exactly when the uniform draw `u` satisfies
`u < sensitivity` for a true positive and `u > specificity` for a true
negative (so, for a uniform draw, with probability `sensitivity`
resp. `1 - specificity`); the record carries the observed result and a
turnaround time of 2-4 days, but no monetary cost field (the cost is the
fixed one-credit deduction at the call site). -/
theorem processLabSample_correct (stype src vid : String) (n : Nat) (u : ℚ) (t : Nat) :
    (labTruth.filter (fun r => r.sample_type == stype && r.source_village == vid) = []
        → labTrueStatus stype vid = false) ∧
    lookupKey (processLabSample stype src vid n u t) "result"
      = some (.str (if (if labTrueStatus stype vid
                        then decide (u < (testChars stype).sensitivity)
                        else decide (u > (testChars stype).specificity))
                    then "POSITIVE" else "NEGATIVE")) ∧
    lookupKey (processLabSample stype src vid n u t) "turnaround_days"
      = some (.nat (2 + t % 3)) ∧
    lookupKey (processLabSample stype src vid n u t) "cost" = none := by
  refine ⟨?_, rfl, rfl, rfl⟩
  intro h
  simp [labTrueStatus, h]

theorem processLabSample_correct_witness :
    labTrueStatus "human_CSF" "V3" = false ∧
    lookupKey (processLabSample "human_CSF" "ward sample" "V3" 0 (1/2) 1) "turnaround_days"
      = some (.nat (2 + 1 % 3)) ∧
    lookupKey (processLabSample "human_CSF" "ward sample" "V3" 0 (1/2) 1) "cost" = none := by
  have h := processLabSample_correct "human_CSF" "ward sample" "V3" 0 (1/2) 1
  exact ⟨h.1 (by rfl), h.2.2.1, h.2.2.2⟩

/-- C6.  Each resource-gated action rejects when the resource is
insufficient — budget below the interview cost, budget below the $100
inspection cost, or lab credits below 1 — returning the unchanged session
state together with the user-facing error message: no field of the
session state is mutated. -/
theorem insufficientResources_no_mutation (s : SessionSt) (k : CharKey)
    (site stype src vid : String) (u : ℚ) (t : Nat) :
    (s.budget < (interviewCost k : ℤ) →
      startInterview s k = (s, some "Insufficient funds!")) ∧
    (s.budget < 100 → inspectSite s site = (s, some "Insufficient funds!")) ∧
    (s.lab_credits < 1 →
      submitLabSample s stype src vid u t = (s, some "No lab credits remaining!")) := by
  refine ⟨?_, ?_, ?_⟩
  · intro h
    unfold startInterview
    rw [if_neg (not_le.mpr h)]
  · intro h
    unfold inspectSite
    rw [if_neg (not_le.mpr h)]
  · intro h
    unfold submitLabSample
    rw [if_neg (not_le.mpr h)]

theorem insufficientResources_no_mutation_witness :
    startInterview ⟨0, 0, [], [], [], none⟩ CharKey.nurse_fatima
      = (⟨0, 0, [], [], [], none⟩, some "Insufficient funds!") ∧
    inspectSite ⟨0, 0, [], [], [], none⟩ "ES02"
      = (⟨0, 0, [], [], [], none⟩, some "Insufficient funds!") ∧
    submitLabSample ⟨0, 0, [], [], [], none⟩ "human_CSF" "w" "V1" 0 0
      = (⟨0, 0, [], [], [], none⟩, some "No lab credits remaining!") := by
  have h := insufficientResources_no_mutation ⟨0, 0, [], [], [], none⟩
    CharKey.nurse_fatima "ES02" "human_CSF" "w" "V1" 0 0
  exact ⟨h.1 (by decide), h.2.1 (by decide), h.2.2 (by decide)⟩

/-- C10.  Whenever the budget suffices, starting an interview deducts the
character's full cost — with no check of the interview history, so a
repeat interview with the same character is charged again at the same
cost (a second start from the resulting state deducts the cost a second
time whenever the budget covers both). -/
theorem startInterview_always_charges (s : SessionSt) (k : CharKey)
    (h : s.budget ≥ (interviewCost k : ℤ)) :
    (startInterview s k).1.budget = s.budget - (interviewCost k : ℤ) ∧
    (startInterview s k).2 = none ∧
    (s.budget ≥ 2 * (interviewCost k : ℤ) →
      (startInterview (startInterview s k).1 k).1.budget
        = s.budget - (interviewCost k : ℤ) - (interviewCost k : ℤ)) := by
  refine ⟨?_, ?_, ?_⟩
  · unfold startInterview
    rw [if_pos h]
  · unfold startInterview
    rw [if_pos h]
  · intro h2
    have h' : (interviewCost k : ℤ) ≤ s.budget - (interviewCost k : ℤ) := by omega
    unfold startInterview
    rw [if_pos h]
    simp only
    rw [if_pos h']

theorem startInterview_always_charges_witness :
    (startInterview ⟨3000, 15, [], [], [(CharKey.nurse_fatima, 4)], none⟩
        CharKey.nurse_fatima).1.budget
      = 3000 - (interviewCost CharKey.nurse_fatima : ℤ) ∧
    (startInterview (startInterview ⟨3000, 15, [], [], [(CharKey.nurse_fatima, 4)], none⟩
        CharKey.nurse_fatima).1 CharKey.nurse_fatima).1.budget
      = 3000 - (interviewCost CharKey.nurse_fatima : ℤ)
          - (interviewCost CharKey.nurse_fatima : ℤ) := by
  have h := startInterview_always_charges
    ⟨3000, 15, [], [], [(CharKey.nurse_fatima, 4)], none⟩ CharKey.nurse_fatima (by decide)
  exact ⟨h.1, h.2.2 (by decide)⟩

/-- C7 (code bug).  Rendering the debrief view from the initial session
state raises: the view reads `st.session_state.spot_map_viewed`, but
`init_session_state` only ever defines `spot_map_created`, and no code
path writes `spot_map_viewed` (the view would fail even past that point:
it also reads the never-initialized `study_deployed` and
`facilitator_mode` keys and the unbound name `findings`). -/
theorem renderDebrief_raises :
    renderDebrief initSessionState
      = Except.error "AttributeError: st.session_state has no attribute spot_map_viewed" := by
  rfl

/-- C8 counterexample.  With the player input `""` — which contains no
keyword of any kind — a successful completion for Nurse Fatima still
flips `health_center_nalu_unlocked` from `False` to `True`, and the value
returned for display is exactly the model's completion text, with no
unlock notification attached. -/
theorem unlock_fires_without_keyword_counterexample :
    lookupKey (getAiResponse CharKey.nurse_fatima "" "KEY" (some "Hello there.")
        initSessionState).2 "health_center_nalu_unlocked" = some (StValue.bool true) ∧
    lookupKey initSessionState "health_center_nalu_unlocked" = some (StValue.bool false) ∧
    (getAiResponse CharKey.nurse_fatima "" "KEY" (some "Hello there.") initSessionState).1
      = "Hello there." := by
  exact ⟨rfl, rfl, rfl⟩

/-- C8 (amended).  The unlock in `get_ai_response` is not keyword-driven
and produces no notification: after any successful completion the
character's `unlocks` key (when present) is set to `True` regardless of
the player's input — the resulting session state is the same for any two
inputs; with an empty API key the warning is returned and the state is
untouched; on an API exception the state is untouched; and re-firing is
harmless, since setting the flag again leaves the state unchanged. -/
theorem getAiResponse_unlock_behavior (k : CharKey) (inp1 inp2 apiKey text : String)
    (st : List (String × StValue)) :
    (getAiResponse k inp1 apiKey (some text) st).2
      = (getAiResponse k inp2 apiKey (some text) st).2 ∧
    getAiResponse k inp1 apiKey (some text) st
      = (if apiKey == ""
         then ("API Key not configured. Please add ANTHROPIC_API_KEY to your Streamlit secrets.",
               st)
         else (text, applyUnlocks k st)) ∧
    (getAiResponse k inp1 apiKey none st).2 = st ∧
    applyUnlocks k (applyUnlocks k st) = applyUnlocks k st := by
  refine ⟨rfl, ?_, ?_, ?_⟩
  · unfold getAiResponse
    by_cases h : apiKey == "" <;> simp [h]
  · unfold getAiResponse
    by_cases h : apiKey == "" <;> simp [h]
  · cases hk : charUnlocks k with
    | none => simp [applyUnlocks, hk]
    | some key => simp [applyUnlocks, hk, setKey_idem]
